import Mathlib

/-!
Shallow embedding of the devbox reconciliation controller
(`controllers/devbox/internal/controller/devbox_controller.go`).

Pure data is translated directly; calls into the cluster store are modelled
by oracle inputs (the store's response) together with an explicit log of the
actions the controller issues, so that theorems can speak about which writes
a pass performs. Functions from the `helper` and `label` packages that are
not part of the provided sources are abstracted as explicit function
parameters (grouped in `PodHelpers`) or plain inputs, never hard-coded.
-/

namespace DevboxCtrl

/-- Devbox desired run state (`DevboxStateRunning` / `DevboxStateStopped`). -/
inductive DevboxState where
  | Running
  | Stopped
deriving DecidableEq, Repr

/-- Network exposure mode (`NetworkTypeNodePort` / `NetworkTypeWebSocket`). -/
inductive NetworkType where
  | NodePort
  | WebSocket
deriving DecidableEq, Repr

/-- Commit history status (`CommitStatusPending` / `Success` / `Failed`). -/
inductive CommitStatus where
  | Pending
  | Success
  | Failed
deriving DecidableEq, Repr

/-- One commit-history entry (image, pod name, confirmed and predicted status). -/
structure CommitHistory where
  image : String
  pod : String
  status : CommitStatus
  predicatedStatus : CommitStatus
deriving DecidableEq, Repr

/-- Pod phase; `PodUnknown` covers the default case of the Go switch. -/
inductive PodPhase where
  | PodPending
  | PodRunning
  | PodSucceeded
  | PodFailed
  | PodUnknown
deriving DecidableEq, Repr

/-- Abstract container state (`corev1.ContainerState` is one of these three). -/
inductive ContainerState where
  | waiting
  | running
  | terminated
deriving DecidableEq, Repr

/-- The fields of a pod that the controller reads. -/
structure Pod where
  name : String
  deletionTimestampIsZero : Bool
  phase : PodPhase
  containerStatuses : List ContainerState
  finalizers : List String
deriving DecidableEq, Repr

/-- Auto-shutdown spec of a devbox. -/
structure AutoShutdownSpec where
  enable : Bool
  time : String
deriving DecidableEq, Repr

/-- Devbox spec fields the controller reads or writes. -/
structure DevboxSpec where
  state : DevboxState
  networkType : NetworkType
  autoShutdown : AutoShutdownSpec
deriving DecidableEq, Repr

/-- Devbox status network block. -/
structure NetworkStatus where
  type : Option NetworkType
  nodePort : Int
  webSocket : String
deriving DecidableEq, Repr

/-- Devbox status fields the controller reads or writes. -/
structure DevboxStatus where
  network : NetworkStatus
  commitHistory : List CommitHistory
  state : Option ContainerState
  lastTerminationState : Option ContainerState
  phase : String
deriving DecidableEq, Repr

/-- A devbox resource. -/
structure Devbox where
  name : String
  ns : String
  spec : DevboxSpec
  status : DevboxStatus
  finalizers : List String
  deletionTimestampIsZero : Bool
deriving DecidableEq, Repr

/-- Modelled from the spec: the blocking finalizer name
(`devboxv1alpha1.FinalizerName`, declared in the api package that is not part
of the provided sources). Its exact value is irrelevant to every claim. -/
def finalizerName : String := "devbox.sealos.io/finalizer"

/-- Startup-time controller configuration (fields of `DevboxReconciler`). -/
structure Config where
  commitImageRegistry : String
  webSocketImage : String
  debugMode : Bool
  websocketProxyDomain : String
  ingressClass : String
  enableAutoShutdown : Bool
  shutdownServerKey : String
  shutdownServerAddr : String
deriving DecidableEq, Repr

/-- Event severity (`corev1.EventTypeNormal` / `EventTypeWarning`). -/
inductive EventType where
  | Normal
  | Warning
deriving DecidableEq, Repr

/-- A recorded event: severity and reason string, as passed to `Eventf`. -/
structure Event where
  etype : EventType
  reason : String
deriving DecidableEq, Repr

/-- Outcome of a step: success or a Go error with its message. -/
inductive StepResult where
  | ok
  | err (msg : String)
deriving DecidableEq, Repr

/-! ## Credential provisioner (`syncSecret`, lines 168-228) -/

/-- Secret data, modelled as the Go `map[string][]byte`. -/
def SecretData : Type := String → Option String

/-- Go map assignment `d[k] = v`. -/
def dataSet (d : SecretData) (k v : String) : SecretData :=
  fun k2 => if k2 = k then some v else d k2

def jwtSecretKey : String := "SEALOS_DEVBOX_JWT_SECRET"

def publicKeyKey : String := "SEALOS_DEVBOX_PUBLIC_KEY"

def privateKeyKey : String := "SEALOS_DEVBOX_PRIVATE_KEY"

def authorizedKeysKey : String := "SEALOS_DEVBOX_AUTHORIZED_KEYS"

/-- Inputs of `syncSecret`: the store's response to the Get (the existing
secret data, or `none` when absent), and the values produced by the random
generators (`rand.String(32)` and `helper.GenerateSSHKeyPair`). -/
structure SyncSecretIn where
  existing : Option SecretData
  randToken : String
  publicKey : String
  privateKey : String

/-- Result of `syncSecret`: the secret data as left in the store, whether a
secret was created (vs. updated in place), whether the created secret got a
controller reference to the devbox, and how many Update calls were issued. -/
structure SyncSecretOut where
  data : SecretData
  result : StepResult
  created : Bool
  ownedByDevbox : Bool
  updates : Nat

/-- Embeds `syncSecret` (lines 168-228): if the secret exists, backfill
`SEALOS_DEVBOX_JWT_SECRET` and then `SEALOS_DEVBOX_AUTHORIZED_KEYS`
independently, each only when the key is absent (the Go `ok` of the map
index), updating the secret after each backfill; otherwise create a new
secret holding the generated keypair and random token, owned by the devbox.
Missing map reads yield the Go zero value, hence `getD ""`. -/
def syncSecret (inp : SyncSecretIn) : SyncSecretOut :=
  match inp.existing with
  | some d =>
    let step1 : SecretData × Nat :=
      match d jwtSecretKey with
      | none => (dataSet d jwtSecretKey inp.randToken, 1)
      | some _ => (d, 0)
    let d1 := step1.1
    let step2 : SecretData × Nat :=
      match d1 authorizedKeysKey with
      | none => (dataSet d1 authorizedKeysKey ((d1 publicKeyKey).getD ""), 1)
      | some _ => (d1, 0)
    { data := step2.1, result := .ok, created := false, ownedByDevbox := false,
      updates := step1.2 + step2.2 }
  | none =>
    let d0 : SecretData := fun _ => none
    let d := dataSet (dataSet (dataSet (dataSet d0
      jwtSecretKey inp.randToken)
      publicKeyKey inp.publicKey)
      privateKeyKey inp.privateKey)
      authorizedKeysKey inp.publicKey
    { data := d, result := .ok, created := true, ownedByDevbox := true, updates := 0 }

/-! ## Pod lifecycle manager (`syncPod`, lines 230-349, and its callees) -/

/-- Error class of a failed pod Create call. The `helper.IsExceededQuotaError`
test (helper package, not in the provided sources) is modelled as the
`quotaExceeded` tag of the error. -/
inductive CreateErr where
  | quotaExceeded
  | otherErr (msg : String)
deriving DecidableEq, Repr

/-- Embeds `helper.IsExceededQuotaError` on the tagged error model. -/
def isExceededQuotaError : CreateErr → Bool
  | .quotaExceeded => true
  | .otherErr _ => false

/-- The pod-related calls `syncPod` and its callees issue against the store. -/
inductive PodAction where
  | createPodCall (name : String)
  | updatePodCall (name : String)
  | deletePodCall (name : String)
  | updateDevbox
  | statusUpdate
deriving DecidableEq, Repr

/-- Overall outcome of a Go function: normal return value, returned error,
or a runtime panic (index out of range). -/
inductive Outcome where
  | ok
  | err (msg : String)
  | panicked
deriving DecidableEq, Repr

/-- The `helper`-package functions used by the pod state machine. Their code
is not part of the provided sources, so they are kept abstract: each one is
an explicit parameter, and every theorem quantifies over them. -/
structure PodHelpers where
  updatePredicatedCommitStatus : Devbox → Pod → Devbox
  updateCommitHistory : Devbox → Pod → Bool → Devbox
  generateDevboxPhase : Devbox → List Pod → String

/-- The assignment of lines 782-783: a commit entry with both its status and
predicted status set to Pending. -/
def commitWithPendingStatus (c : CommitHistory) : CommitHistory :=
  { c with status := CommitStatus.Pending, predicatedStatus := CommitStatus.Pending }

/-- Embeds `createPod` (lines 781-789): set the next commit entry's status and
predicted status to Pending, issue the Create; only when the Create succeeds
append the entry to `devbox.Status.CommitHistory`. The store's response to
the Create is the `res` oracle (`none` = success). -/
def createPod (devbox : Devbox) (expectPodName : String)
    (nextCommit : CommitHistory) (res : Option CreateErr) :
    Devbox × Option CreateErr × List PodAction :=
  let next := commitWithPendingStatus nextCommit
  match res with
  | none =>
    ({ devbox with status.commitHistory := devbox.status.commitHistory ++ [next] },
      none, [.createPodCall expectPodName])
  | some e => (devbox, some e, [.createPodCall expectPodName])

/-- Embeds `deletePod` (lines 791-807): remove the pod's finalizer, Update, Delete,
then record `pod.Status.ContainerStatuses[0].State` as the last termination
state — an unguarded index that panics when the list is empty — and update
the commit history. -/
def deletePod (h : PodHelpers) (devbox : Devbox) (pod : Pod) :
    Devbox × Outcome × List PodAction :=
  let acts := [PodAction.updatePodCall pod.name, PodAction.deletePodCall pod.name]
  match pod.containerStatuses with
  | [] => (devbox, .panicked, acts)
  | c :: _ =>
    let devbox1 := { devbox with status.lastTerminationState := some c }
    let devbox2 := h.updateCommitHistory devbox1 pod true
    (devbox2, .ok, acts)

/-- Embeds `handlePodDeleted` (lines 809-820): remove the pod's finalizer, Update,
update the commit history, then record the last termination state via the
same unguarded `ContainerStatuses[0]` index. -/
def handlePodDeleted (h : PodHelpers) (devbox : Devbox) (pod : Pod) :
    Devbox × Outcome × List PodAction :=
  let acts := [PodAction.updatePodCall pod.name]
  let devbox1 := h.updateCommitHistory devbox pod true
  match pod.containerStatuses with
  | [] => (devbox1, .panicked, acts)
  | c :: _ =>
    ({ devbox1 with status.lastTerminationState := some c }, .ok, acts)

/-- Inputs of one `syncPod` call: the devbox, the store's response to the
pod List (the pods carrying the devbox's label set), the store's response to
a pod Create (`none` = success), the freshly generated next commit entry
(`generateNextCommitHistory` draws randomness), the result of
`helper.PodMatchExpectations` on the generated expected pod vs. the observed
pod, and whether the deferred status update succeeds. -/
structure SyncPodIn where
  devbox : Devbox
  pods : List Pod
  createResult : Option CreateErr
  nextCommit : CommitHistory
  podMatches : Bool
  statusUpdateOk : Bool
deriving Repr

/-- Result of one `syncPod` call. -/
structure SyncPodOut where
  devbox : Devbox
  outcome : Outcome
  events : List Event
  actions : List PodAction
deriving Repr

/-- The body of `syncPod` after the more-than-one-pod guard: the state
switch of lines 267-347. Returns the devbox as mutated in memory, the
outcome, the events emitted, and the store calls issued. -/
def syncPodBody (h : PodHelpers) (inp : SyncPodIn) :
    Devbox × Outcome × List Event × List PodAction :=
  match inp.devbox.spec.state with
  | .Running =>
    match inp.pods with
    | [] =>
      let created := createPod inp.devbox inp.nextCommit.pod inp.nextCommit inp.createResult
      match created.2.1 with
      | none => (created.1, .ok, [], created.2.2)
      | some e =>
        if isExceededQuotaError e then
          let devbox1 := { created.1 with spec.state := DevboxState.Stopped }
          (devbox1, .ok, [⟨.Warning, "Devbox is exceeded quota"⟩],
            created.2.2 ++ [.updateDevbox])
        else
          match e with
          | .otherErr m => (created.1, .err m, [], created.2.2)
          | .quotaExceeded => (created.1, .ok, [], created.2.2)
    | pod :: _ =>
      if pod.containerStatuses.length = 0 then
        (inp.devbox, .err "pod container size is 0", [], [])
      else
        let devbox1 := { inp.devbox with status.state := pod.containerStatuses.head? }
        let devbox2 := h.updatePredicatedCommitStatus devbox1 pod
        if ¬ pod.deletionTimestampIsZero then
          let res := handlePodDeleted h devbox2 pod
          (res.1, res.2.1, [], res.2.2)
        else if inp.podMatches then
          match pod.phase with
          | .PodPending | .PodRunning =>
            (h.updateCommitHistory devbox2 pod false, .ok, [], [])
          | .PodFailed | .PodSucceeded =>
            let res := deletePod h devbox2 pod
            (res.1, res.2.1, [], res.2.2)
          | .PodUnknown => (devbox2, .ok, [], [])
        else
          let res := deletePod h devbox2 pod
          (res.1, res.2.1, [], res.2.2)
  | .Stopped =>
    match inp.pods with
    | [] => (inp.devbox, .ok, [], [])
    | pod :: _ =>
      let devbox1 := { inp.devbox with status.state := none }
      let devbox2 := h.updatePredicatedCommitStatus devbox1 pod
      if ¬ pod.deletionTimestampIsZero then
        let res := handlePodDeleted h devbox2 pod
        (res.1, res.2.1, [], res.2.2)
      else
        let res := deletePod h devbox2 pod
        (res.1, res.2.1, [], res.2.2)

/-- Embeds `syncPod` (lines 230-349): list the labelled pods; more than one is a
reported error issued before anything else, so no action, event or status
update happens in that case. Otherwise the deferred status update of lines
244-265 runs after the body (also during a panic unwind): it recomputes the
phase, merges the status into the latest copy and writes it, emitting a
success or failure event. -/
def syncPod (h : PodHelpers) (inp : SyncPodIn) : SyncPodOut :=
  if inp.pods.length > 1 then
    { devbox := inp.devbox, outcome := .err "more than one pod found",
      events := [], actions := [] }
  else
    let body := syncPodBody h inp
    let devboxFinal := { body.1 with
      status.phase := h.generateDevboxPhase body.1 inp.pods }
    if inp.statusUpdateOk then
      { devbox := devboxFinal, outcome := body.2.1,
        events := body.2.2.1 ++ [⟨.Normal, "Sync pod success"⟩],
        actions := body.2.2.2 ++ [.statusUpdate] }
    else
      { devbox := devboxFinal, outcome := body.2.1,
        events := body.2.2.1 ++ [⟨.Warning, "Sync pod failed"⟩],
        actions := body.2.2.2 ++ [.statusUpdate] }

/-! ## Network provisioner, NodePort mode (`syncNodePortNetwork`,
`getServicePort`, lines 351-450) -/

/-- A runtime-declared port (`runtimecr.Spec.Config.Ports` entry). -/
structure RuntimePort where
  name : String
  containerPort : Int
  protocol : String
deriving DecidableEq, Repr

/-- A service port; `nodePort` is the platform-assigned field. -/
structure ServicePort where
  name : String
  port : Int
  targetPort : Int
  protocol : String
  nodePort : Int
deriving DecidableEq, Repr

/-- Conversion of one runtime port into a service port (lines 431-438). -/
def toServicePort (p : RuntimePort) : ServicePort :=
  { name := p.name, port := p.containerPort, targetPort := p.containerPort,
    protocol := p.protocol, nodePort := 0 }

/-- The default SSH service port of lines 440-447: port 22/TCP. -/
def defaultSSHServicePort : ServicePort :=
  { name := "devbox-ssh-port", port := 22, targetPort := 22, protocol := "TCP", nodePort := 0 }

/-- Embeds `getServicePort` (lines 425-450): one service port per runtime-declared
port; when the runtime declares none, a single SSH port 22/TCP. -/
def getServicePort (runtimePorts : List RuntimePort) : List ServicePort :=
  let servicePorts := runtimePorts.map toServicePort
  if servicePorts.isEmpty then [defaultSSHServicePort]
  else servicePorts

/-- The mutate function of the NodePort service upsert (lines 366-378): keep
existing ports if any, overwriting only the first port's name, port,
targetPort and protocol; install the full desired list when none exist. -/
def upsertServicePorts (existing : Option (List ServicePort))
    (desired : List ServicePort) : List ServicePort :=
  match existing with
  | none => desired
  | some ports =>
    match ports, desired with
    | [], _ => desired
    | e :: rest, [] => e :: rest
    | e :: rest, dh :: _ =>
      { e with name := dh.name, port := dh.port,
               targetPort := dh.targetPort, protocol := dh.protocol } :: rest

/-- The loop of lines 396-402: first non-zero assigned node port, else 0. -/
def extractNodePort : List ServicePort → Int
  | [] => 0
  | p :: rest => if p.nodePort ≠ 0 then p.nodePort else extractNodePort rest

/-- Store calls of the NodePort path, with the written content as payload. -/
inductive NpAction where
  | upsertService (selector : List (String × String)) (svcType : String)
      (ports : List ServicePort)
  | getService
  | statusWrite (net : NetworkStatus)
deriving DecidableEq, Repr

/-- Inputs of `syncNodePortNetwork`: the devbox, its recommended label set,
the desired service ports, the store's view of the existing service ports
(`none` when the service is absent), and the re-read response after the
upsert (in which the platform may have assigned node ports). -/
structure NpIn where
  devbox : Devbox
  recLabels : List (String × String)
  servicePorts : List ServicePort
  existingPorts : Option (List ServicePort)
  observedPorts : List ServicePort
deriving Repr

/-- Result of `syncNodePortNetwork`. -/
structure NpOut where
  devbox : Devbox
  result : StepResult
  actions : List NpAction
deriving DecidableEq, Repr

/-- Embeds `syncNodePortNetwork` (lines 351-410): upsert the NodePort service
selecting the devbox labels, re-read it, extract the first non-zero assigned
node port — zero means failure — then publish the network type and node port
to status. -/
def syncNodePortNetwork (inp : NpIn) : NpOut :=
  let stored := upsertServicePorts inp.existingPorts inp.servicePorts
  let acts := [NpAction.upsertService inp.recLabels "NodePort" stored,
               NpAction.getService]
  let np := extractNodePort inp.observedPorts
  if np = 0 then
    { devbox := inp.devbox,
      result := .err ("NodePort not found for service " ++ inp.devbox.name ++ "-svc"),
      actions := acts }
  else
    let devbox1 := { inp.devbox with
      status.network.type := some NetworkType.NodePort,
      status.network.nodePort := np }
    { devbox := devbox1, result := .ok,
      actions := acts ++ [.statusWrite devbox1.status.network] }

/-! ## Network provisioner, WebSocket mode (`syncWebSocketNetwork` and
callees, lines 466-778) -/

/-- The proxy ingress object: only its host matters to the claims. -/
structure IngressObj where
  host : String
deriving DecidableEq, Repr

/-- The store's view of the WebSocket-mode derived objects. -/
structure WsCluster where
  podSvc : Bool
  proxyDeployment : Bool
  proxySvc : Bool
  proxyIngress : Option IngressObj
deriving DecidableEq, Repr

/-- Store calls of the WebSocket path, with written content as payload. -/
inductive WsAction where
  | statusWrite (st : DevboxStatus)
  | createPodSvc
  | createDeployment
  | deleteDeployment
  | createProxySvc
  | createIngress (host : String)
deriving DecidableEq, Repr

/-- Embeds `generateProxyIngressHost` (lines 488-490): a fresh random string joined
with the configured proxy domain. The random draw is the `randStr` input. -/
def generateProxyIngressHost (cfg : Config) (randStr : String) : String :=
  randStr ++ "." ++ cfg.websocketProxyDomain

/-- Embeds `syncPodSvc` (lines 742-778): upsert of the internal pod service. When
the service exists the mutate function resets controller-owned fields to the
same desired values, so no write is needed; when absent it is created. -/
def syncPodSvc (c : WsCluster) : WsCluster × List WsAction :=
  if c.podSvc then (c, [])
  else ({ c with podSvc := true }, [.createPodSvc])

/-- Embeds `syncProxyPod` (lines 712-740): when the devbox is Running, create the
proxy deployment if it is absent and leave it untouched if present; when not
Running, delete it if present and do nothing if absent. -/
def syncProxyPod (devbox : Devbox) (c : WsCluster) : WsCluster × List WsAction :=
  if devbox.spec.state = DevboxState.Running then
    if c.proxyDeployment then (c, [])
    else ({ c with proxyDeployment := true }, [.createDeployment])
  else
    if c.proxyDeployment then ({ c with proxyDeployment := false }, [.deleteDeployment])
    else (c, [])

/-- Embeds `syncProxySvc` (lines 542-580): upsert of the ClusterIP proxy service,
analogous to `syncPodSvc`. -/
def syncProxySvc (c : WsCluster) : WsCluster × List WsAction :=
  if c.proxySvc then (c, [])
  else ({ c with proxySvc := true }, [.createProxySvc])

/-- Embeds `syncProxyIngress` (lines 492-540): generate a fresh random host, then
CreateOrUpdate the ingress. On create the new host is installed; on update
the mutate function only sets the controller reference, so the existing
ingress (and its original host) is left as is. Either way the function
returns the freshly generated host, not the host actually in the store. -/
def syncProxyIngress (cfg : Config) (c : WsCluster) (randStr : String) :
    WsCluster × String × List WsAction :=
  let host := generateProxyIngressHost cfg randStr
  match c.proxyIngress with
  | none => ({ c with proxyIngress := some ⟨host⟩ }, host, [.createIngress host])
  | some _ => (c, host, [])

/-- Result of one `syncWebSocketNetwork` pass. -/
structure WsOut where
  devbox : Devbox
  cluster : WsCluster
  actions : List WsAction
deriving DecidableEq, Repr

/-- Embeds `syncWebSocketNetwork` (lines 466-486): publish the WebSocket network
type to status, upsert the pod service, sync the proxy deployment, upsert
the proxy service, sync the proxy ingress, store the returned host in
`status.network.webSocket` and write the status again. -/
def syncWebSocketNetwork (cfg : Config) (devbox : Devbox) (c : WsCluster)
    (randStr : String) : WsOut :=
  let devbox1 := { devbox with status.network.type := some NetworkType.WebSocket }
  let s1 := syncPodSvc c
  let s2 := syncProxyPod devbox1 s1.1
  let s3 := syncProxySvc s2.1
  let s4 := syncProxyIngress cfg s3.1 randStr
  let devbox2 := { devbox1 with status.network.webSocket := s4.2.1 }
  { devbox := devbox2, cluster := s4.1,
    actions := [.statusWrite devbox1.status] ++ s1.2 ++ s2.2 ++ s3.2 ++ s4.2.2
      ++ [.statusWrite devbox2.status] }

/-! ## Proxy deployment environment and JWT (`generateProxyPodJWT`,
`generateProxyPodEnv`, lines 596-662) -/

/-- JWT signing algorithm; the code uses `jwt.SigningMethodHS256` only. -/
inductive SigningAlg where
  | HS256
deriving DecidableEq, Repr

/-- The claims of the proxy token (`DevboxClaims`, lines 590-594, plus the
registered claims set in `generateProxyPodJWT`). Times are in seconds. -/
structure JWTClaims where
  devboxName : String
  nameSpace : String
  issuedAt : Nat
  expiresAt : Nat
  issuer : String
deriving DecidableEq, Repr

/-- A signed token: the algorithm, the signing key and the claims that
`jwt.NewWithClaims(...).SignedString(key)` commits to. The byte-level HMAC
serialization is the jwt library's, outside the embedded program. -/
structure SignedJWT where
  alg : SigningAlg
  signingKey : String
  claims : JWTClaims
deriving DecidableEq, Repr

/-- Embeds `generateProxyPodJWT` (lines 596-612): HS256 token under the configured
shutdown-server key whose claims carry the devbox name and namespace, issued
now and expiring `time.Hour * 7 * 24` later (7 days = 604800 seconds). -/
def generateProxyPodJWT (cfg : Config) (devbox : Devbox) (now : Nat) : SignedJWT :=
  { alg := .HS256, signingKey := cfg.shutdownServerKey,
    claims := { devboxName := devbox.name, nameSpace := devbox.ns,
                issuedAt := now, expiresAt := now + 7 * 24 * 3600,
                issuer := "devbox-controller" } }

/-- An environment variable value: a plain string or the signed token. -/
inductive EnvValue where
  | str (v : String)
  | tok (t : SignedJWT)
deriving DecidableEq, Repr

/-- An environment variable of the proxy container. -/
structure EnvVar where
  name : String
  value : EnvValue
deriving DecidableEq, Repr

/-- Go `strconv.FormatBool`. -/
def formatBool (b : Bool) : String := if b then "true" else "false"

/-- The loop of lines 639-645: target port of the first service port named
`devbox-ssh-port`, defaulting to `"22"`. -/
def sshPortOf : List ServicePort → String
  | [] => "22"
  | p :: rest => if p.name = "devbox-ssh-port" then toString p.targetPort else sshPortOf rest

/-- Embeds `generateProxyPodEnv` (lines 614-662): the toggle is the conjunction of
the devbox auto-shutdown spec and the controller-wide flag; the interval is
appended only when the toggle is true; then the signed token, the target
address, the fixed listen address and the shutdown-service URL. -/
def generateProxyPodEnv (cfg : Config) (devbox : Devbox)
    (servicePorts : List ServicePort) (now : Nat) : List EnvVar :=
  let autoShutdownEnabled := devbox.spec.autoShutdown.enable && cfg.enableAutoShutdown
  let e1 : List EnvVar :=
    [{ name := "ENABLE_AUTO_SHUTDOWN", value := .str (formatBool autoShutdownEnabled) }]
  let e2 := if autoShutdownEnabled then
      e1 ++ [{ name := "AUTO_SHUTDOWN_INTERVAL", value := .str devbox.spec.autoShutdown.time }]
    else e1
  let e3 := e2 ++ [{ name := "JWT_TOKEN", value := .tok (generateProxyPodJWT cfg devbox now) }]
  let target : EnvValue := .str (devbox.name ++ "-pod-svc:" ++ sshPortOf servicePorts)
  let e4 := e3 ++ [{ name := "TARGET", value := target }]
  let e5 := e4 ++ [{ name := "LISTEN", value := .str "0.0.0.0:80" }]
  e5 ++ [{ name := "AUTO_SHUTDOWN_SERVICE_URL", value := .str cfg.shutdownServerAddr }]

/-- Name-keyed lookup in an environment list (first match). -/
def envLookup (env : List EnvVar) (n : String) : Option EnvValue :=
  (env.find? (fun e => e.name == n)).map (fun e => e.value)

/-! ## Cleanup path (`removeAll`, `deleteResourcesByLabels`, lines 822-852) -/

/-- Store response to a `DeleteAllOf` call. -/
inductive DelResult where
  | ok
  | notFound
  | otherErr (msg : String)
deriving DecidableEq, Repr

/-- Embeds `deleteResourcesByLabels` (lines 846-852): `DeleteAllOf` by namespace and
label selector, with `client.IgnoreNotFound` absorbing a not-found response,
so deleting absent objects is not an error. -/
def deleteResourcesByLabels (res : DelResult) : StepResult :=
  match res with
  | .ok => .ok
  | .notFound => .ok
  | .otherErr m => .err m

/-- Store calls of the cleanup path. -/
inductive CleanupAction where
  | listPods
  | stripPodFinalizer (name : String)
  | deleteAllPods
  | deleteAllServices
  | deleteAllSecrets
deriving DecidableEq, Repr

/-- Inputs of `removeAll`: the pods carrying the devbox's label set, whether
the finalizer-stripping pod Updates succeed, and the store's responses to
the three bulk deletes. -/
structure RemoveAllIn where
  pods : List Pod
  podUpdateOk : Bool
  delPods : DelResult
  delServices : DelResult
  delSecrets : DelResult
deriving Repr

/-- Result of `removeAll`. -/
structure RemoveAllOut where
  result : StepResult
  actions : List CleanupAction
deriving DecidableEq, Repr

/-- The finalizer-strip updates of lines 828-834: one Update per listed pod
that actually carries the finalizer. -/
def stripFinalizerActions (pods : List Pod) : List CleanupAction :=
  (pods.filter (fun p => finalizerName ∈ p.finalizers)).map
    (fun p => CleanupAction.stripPodFinalizer p.name)

/-- The bulk-delete tail of `removeAll` (lines 835-843): delete pods, then
services, then secrets by label selector, aborting on the first real
error. -/
def removeAllDeletes (inp : RemoveAllIn) (base : List CleanupAction) : RemoveAllOut :=
  match deleteResourcesByLabels inp.delPods with
  | .err m => { result := .err m, actions := base ++ [.deleteAllPods] }
  | .ok =>
    match deleteResourcesByLabels inp.delServices with
    | .err m => { result := .err m, actions := base ++ [.deleteAllPods, .deleteAllServices] }
    | .ok =>
      { result := deleteResourcesByLabels inp.delSecrets,
        actions := base ++ [.deleteAllPods, .deleteAllServices, .deleteAllSecrets] }

/-- Embeds `removeAll` (lines 822-844): list the labelled pods, strip the blocking
finalizer from each (aborting on an Update failure), then bulk-delete pods,
then services, then secrets by label selector, each with not-found
absorbed. -/
def removeAll (inp : RemoveAllIn) : RemoveAllOut :=
  let strips := stripFinalizerActions inp.pods
  match strips with
  | s :: _ =>
    if ¬ inp.podUpdateOk then
      { result := .err "update pod failed", actions := [.listPods, s] }
    else removeAllDeletes inp ([.listPods] ++ strips)
  | [] => removeAllDeletes inp [.listPods]

/-! ## Reconciler core (`Reconcile`, lines 84-166) -/

/-- Steps of one reconciliation pass, at the granularity `Reconcile` issues
them. -/
inductive RAction where
  | addFinalizerRetry
  | mirrorNetworkStatus
  | secretStep
  | networkStep
  | podStep
  | cleanupStep
  | removeDevboxFinalizer
  | updateDevbox
deriving DecidableEq, Repr

/-- Inputs of one `Reconcile` pass: whether the devbox still exists, the
devbox, whether the retried finalizer add succeeds, the cleanup inputs used
when the devbox is marked for deletion, and the outcomes of the three
forward-path sub-syncs. -/
structure ReconcileIn where
  devboxFound : Bool
  devbox : Devbox
  addFinalizerOk : Bool
  cleanup : RemoveAllIn
  secretResult : StepResult
  networkResult : StepResult
  podResult : StepResult
deriving Repr

/-- Result of one `Reconcile` pass. -/
structure ReconcileOut where
  devbox : Devbox
  result : StepResult
  events : List Event
  actions : List RAction
deriving DecidableEq, Repr

/-- Remove one occurrence of the devbox finalizer. -/
def removeFinalizerFrom (fs : List String) : List String :=
  fs.filter (fun f => f ≠ finalizerName)

/-- Embeds `Reconcile` (lines 84-166): a missing devbox is treated as already
deleted; a devbox marked for deletion goes through `removeAll` and only on
its success has its own finalizer removed; otherwise the finalizer is
ensured (retried on conflict), `networkSpec.type` is mirrored into status
(write error ignored), then secret, network and pod sync run in that order,
each failure emitting a warning event and aborting the pass. A success event
is emitted after the secret and pod steps; the network step logs success but
records no event. -/
def reconcile (inp : ReconcileIn) : ReconcileOut :=
  if ¬ inp.devboxFound then
    { devbox := inp.devbox, result := .ok, events := [], actions := [] }
  else if ¬ inp.devbox.deletionTimestampIsZero then
    let ra := removeAll inp.cleanup
    match ra.result with
    | .err m => { devbox := inp.devbox, result := .err m, events := [], actions := [.cleanupStep] }
    | .ok =>
      if finalizerName ∈ inp.devbox.finalizers then
        { devbox := { inp.devbox with finalizers := removeFinalizerFrom inp.devbox.finalizers },
          result := .ok, events := [],
          actions := [.cleanupStep, .removeDevboxFinalizer, .updateDevbox] }
      else
        { devbox := inp.devbox, result := .ok, events := [], actions := [.cleanupStep] }
  else if ¬ inp.addFinalizerOk then
    { devbox := inp.devbox, result := .err "add finalizer failed",
      events := [], actions := [.addFinalizerRetry] }
  else
    let devbox1 := { inp.devbox with
      status.network.type := some inp.devbox.spec.networkType }
    let base := [RAction.addFinalizerRetry, RAction.mirrorNetworkStatus]
    match inp.secretResult with
    | .err m =>
      { devbox := devbox1, result := .err m,
        events := [⟨.Warning, "Sync secret failed"⟩],
        actions := base ++ [.secretStep] }
    | .ok =>
      let ev1 : List Event := [⟨.Normal, "Sync secret success"⟩]
      match inp.networkResult with
      | .err m =>
        { devbox := devbox1, result := .err m,
          events := ev1 ++ [⟨.Warning, "Sync network failed"⟩],
          actions := base ++ [.secretStep, .networkStep] }
      | .ok =>
        match inp.podResult with
        | .err m =>
          { devbox := devbox1, result := .err m,
            events := ev1 ++ [⟨.Warning, "Sync pod failed"⟩],
            actions := base ++ [.secretStep, .networkStep, .podStep] }
        | .ok =>
          { devbox := devbox1, result := .ok,
            events := ev1 ++ [⟨.Normal, "Sync pod success"⟩],
            actions := base ++ [.secretStep, .networkStep, .podStep] }

/-! ## Concrete fixtures used by witnesses and counterexamples -/

/-- A concrete instantiation of the abstract helper functions, used only to
evaluate witnesses: identity on the devbox, empty phase. -/
def trivialHelpers : PodHelpers :=
  { updatePredicatedCommitStatus := fun d _ => d
    updateCommitHistory := fun d _ _ => d
    generateDevboxPhase := fun _ _ => "" }

/-- A concrete devbox status. -/
def sampleStatus : DevboxStatus :=
  { network := { type := none, nodePort := 0, webSocket := "" }
    commitHistory := []
    state := none
    lastTerminationState := none
    phase := "" }

/-- A concrete running devbox in WebSocket mode. -/
def sampleDevbox : Devbox :=
  { name := "box", ns := "user-ns"
    spec := { state := .Running, networkType := .WebSocket,
              autoShutdown := { enable := false, time := "" } }
    status := sampleStatus
    finalizers := [finalizerName]
    deletionTimestampIsZero := true }

/-- A concrete commit-history entry used as the generated next entry. -/
def sampleCommit : CommitHistory :=
  { image := "reg/user-ns/box:abcde-2024", pod := "box-abcde",
    status := .Failed, predicatedStatus := .Failed }

/-- A live pod whose container-status list has not been populated. -/
def podNoStatuses : Pod :=
  { name := "box-abcde", deletionTimestampIsZero := true,
    phase := .PodPending, containerStatuses := [], finalizers := [finalizerName] }

/-- A concrete controller configuration. -/
def sampleConfig : Config :=
  { commitImageRegistry := "reg", webSocketImage := "ws-img",
    debugMode := false, websocketProxyDomain := "sealos.example",
    ingressClass := "nginx", enableAutoShutdown := true,
    shutdownServerKey := "k3y", shutdownServerAddr := "http://shutdown" }

/-- An empty WebSocket-mode cluster view: no derived object exists yet. -/
def emptyWsCluster : WsCluster :=
  { podSvc := false, proxyDeployment := false, proxySvc := false, proxyIngress := none }

/-- An observed service port carrying the platform-assigned node port. -/
def assignedSSHPort : ServicePort :=
  { defaultSSHServicePort with nodePort := 30022 }

/-- The concrete NodePort-sync input used by the C7 witness: a runtime with
no declared ports and an observed service with node port 30022. -/
def sampleNpIn : NpIn :=
  { devbox := sampleDevbox, recLabels := [("app", "box")],
    servicePorts := getServicePort [], existingPorts := none,
    observedPorts := [assignedSSHPort] }

/-- A stopped copy of the sample devbox. -/
def stoppedDevbox : Devbox :=
  { sampleDevbox with spec.state := DevboxState.Stopped }

/-- First WebSocket pass on an empty cluster, with random draw `aaaaaaaaaaaa`. -/
def wsPass1 : WsOut :=
  syncWebSocketNetwork sampleConfig sampleDevbox emptyWsCluster "aaaaaaaaaaaa"

/-- Second WebSocket pass, no external change, fresh random draw
`bbbbbbbbbbbb`. -/
def wsPass2 : WsOut :=
  syncWebSocketNetwork sampleConfig wsPass1.devbox wsPass1.cluster "bbbbbbbbbbbb"

/-- A cleanup input with nothing left to delete: no labelled pods, and all
three bulk deletes answer not-found. -/
def emptyCleanup : RemoveAllIn :=
  { pods := [], podUpdateOk := true, delPods := .notFound,
    delServices := .notFound, delSecrets := .notFound }

/-- A forward reconciliation pass whose three sub-syncs all succeed. -/
def reconcileAllOkIn : ReconcileIn :=
  { devboxFound := true, devbox := sampleDevbox, addFinalizerOk := true,
    cleanup := emptyCleanup, secretResult := .ok, networkResult := .ok,
    podResult := .ok }

/-- The sample devbox marked for deletion. -/
def deletingDevbox : Devbox :=
  { sampleDevbox with deletionTimestampIsZero := false }

/-- A deletion pass over one labelled pod that still carries the blocking
finalizer, with the three bulk deletes answering ok, not-found, ok. -/
def deletionPassIn : ReconcileIn :=
  { devboxFound := true, devbox := deletingDevbox, addFinalizerOk := true,
    cleanup := { pods := [podNoStatuses], podUpdateOk := true, delPods := .ok,
                 delServices := .notFound, delSecrets := .ok },
    secretResult := .ok, networkResult := .ok, podResult := .ok }

/-! ## Claim theorems -/

/-- C1: in a reconciliation pass of a Running devbox with no existing pod,
a quota-exceeded pod creation does not make the pass fail: the devbox spec
state is forced to Stopped, a warning event is emitted, and the commit
history is unchanged; an entry is appended exactly when the creation
succeeds. -/
theorem syncPod_quota_exceeded_degrades_to_stopped (h : PodHelpers)
    (inp : SyncPodIn)
    (hrun : inp.devbox.spec.state = DevboxState.Running)
    (hpods : inp.pods = []) :
    (inp.createResult = some CreateErr.quotaExceeded →
      (syncPod h inp).outcome = Outcome.ok ∧
      (syncPod h inp).devbox.spec.state = DevboxState.Stopped ∧
      (⟨EventType.Warning, "Devbox is exceeded quota"⟩ : Event) ∈ (syncPod h inp).events ∧
      (syncPod h inp).devbox.status.commitHistory = inp.devbox.status.commitHistory) ∧
    (inp.createResult = none →
      (syncPod h inp).outcome = Outcome.ok ∧
      (syncPod h inp).devbox.status.commitHistory =
        inp.devbox.status.commitHistory ++ [commitWithPendingStatus inp.nextCommit]) := by
  constructor <;> intro hcr <;>
    simp [syncPod, syncPodBody, createPod, isExceededQuotaError, hpods, hrun, hcr] <;>
    split <;> simp

/-- Witness for C1 at a concrete input: a Running devbox, no pods, and a
quota-exceeded create response. -/
theorem syncPod_quota_exceeded_degrades_to_stopped_witness :
    (syncPod trivialHelpers
      { devbox := sampleDevbox, pods := [],
        createResult := some CreateErr.quotaExceeded,
        nextCommit := sampleCommit, podMatches := true,
        statusUpdateOk := true }).outcome = Outcome.ok ∧
    (syncPod trivialHelpers
      { devbox := sampleDevbox, pods := [],
        createResult := some CreateErr.quotaExceeded,
        nextCommit := sampleCommit, podMatches := true,
        statusUpdateOk := true }).devbox.spec.state = DevboxState.Stopped ∧
    (⟨EventType.Warning, "Devbox is exceeded quota"⟩ : Event) ∈
      (syncPod trivialHelpers
        { devbox := sampleDevbox, pods := [],
          createResult := some CreateErr.quotaExceeded,
          nextCommit := sampleCommit, podMatches := true,
          statusUpdateOk := true }).events ∧
    (syncPod trivialHelpers
      { devbox := sampleDevbox, pods := [],
        createResult := some CreateErr.quotaExceeded,
        nextCommit := sampleCommit, podMatches := true,
        statusUpdateOk := true }).devbox.status.commitHistory =
      sampleDevbox.status.commitHistory :=
  (syncPod_quota_exceeded_degrades_to_stopped trivialHelpers _ rfl rfl).1 rfl

/-- C6: when the pod sync observes more than one pod carrying the devbox's
label set, the pass fails with the reported error before issuing any store
call, emitting any event, or touching the devbox: the inconsistency is
never auto-resolved destructively. -/
theorem syncPod_multiple_pods_reported_only (h : PodHelpers) (inp : SyncPodIn)
    (hmany : inp.pods.length > 1) :
    (syncPod h inp).outcome = Outcome.err "more than one pod found" ∧
    (syncPod h inp).actions = [] ∧
    (syncPod h inp).events = [] ∧
    (syncPod h inp).devbox = inp.devbox := by
  simp [syncPod, hmany]

/-- Witness for C6 at a concrete input with two observed pods. -/
theorem syncPod_multiple_pods_reported_only_witness :
    (syncPod trivialHelpers
      { devbox := sampleDevbox, pods := [podNoStatuses, podNoStatuses],
        createResult := none, nextCommit := sampleCommit,
        podMatches := true, statusUpdateOk := true }).outcome =
      Outcome.err "more than one pod found" ∧
    (syncPod trivialHelpers
      { devbox := sampleDevbox, pods := [podNoStatuses, podNoStatuses],
        createResult := none, nextCommit := sampleCommit,
        podMatches := true, statusUpdateOk := true }).actions = [] ∧
    (syncPod trivialHelpers
      { devbox := sampleDevbox, pods := [podNoStatuses, podNoStatuses],
        createResult := none, nextCommit := sampleCommit,
        podMatches := true, statusUpdateOk := true }).events = [] ∧
    (syncPod trivialHelpers
      { devbox := sampleDevbox, pods := [podNoStatuses, podNoStatuses],
        createResult := none, nextCommit := sampleCommit,
        podMatches := true, statusUpdateOk := true }).devbox = sampleDevbox :=
  syncPod_multiple_pods_reported_only trivialHelpers _ (by decide)

/-- C10: in the Stopped-state path, deleting an observed live pod reaches
the unguarded `ContainerStatuses[0]` index even when the container-status
list is empty (so the access panics), and the pod has already been updated
and deleted when it is reached; the emptiness guard exists only in the
Running-state path, which returns the error instead. -/
theorem syncPod_stopped_path_unguarded_index (h : PodHelpers) (dv : Devbox)
    (pod : Pod) (inp : SyncPodIn)
    (hinp : inp = { devbox := dv, pods := [pod], createResult := none,
                    nextCommit := sampleCommit, podMatches := true,
                    statusUpdateOk := true })
    (hcs : pod.containerStatuses = [])
    (hlive : pod.deletionTimestampIsZero = true) :
    (dv.spec.state = DevboxState.Stopped →
      (syncPod h inp).outcome = Outcome.panicked ∧
      PodAction.updatePodCall pod.name ∈ (syncPod h inp).actions ∧
      PodAction.deletePodCall pod.name ∈ (syncPod h inp).actions) ∧
    (dv.spec.state = DevboxState.Running →
      (syncPod h inp).outcome = Outcome.err "pod container size is 0") := by
  subst hinp
  constructor <;> intro hstate <;>
    simp [syncPod, syncPodBody, deletePod, hstate, hcs, hlive]

/-- Witness for C10 at a concrete input: a live pod with an empty
container-status list under a Stopped devbox panics, and the same pod under
a Running devbox hits the guard instead. -/
theorem syncPod_stopped_path_unguarded_index_witness :
    ((syncPod trivialHelpers
      { devbox := { sampleDevbox with spec.state := DevboxState.Stopped },
        pods := [podNoStatuses], createResult := none,
        nextCommit := sampleCommit, podMatches := true,
        statusUpdateOk := true }).outcome = Outcome.panicked ∧
     PodAction.updatePodCall podNoStatuses.name ∈
      (syncPod trivialHelpers
        { devbox := { sampleDevbox with spec.state := DevboxState.Stopped },
          pods := [podNoStatuses], createResult := none,
          nextCommit := sampleCommit, podMatches := true,
          statusUpdateOk := true }).actions ∧
     PodAction.deletePodCall podNoStatuses.name ∈
      (syncPod trivialHelpers
        { devbox := { sampleDevbox with spec.state := DevboxState.Stopped },
          pods := [podNoStatuses], createResult := none,
          nextCommit := sampleCommit, podMatches := true,
          statusUpdateOk := true }).actions) ∧
    (syncPod trivialHelpers
      { devbox := sampleDevbox, pods := [podNoStatuses], createResult := none,
        nextCommit := sampleCommit, podMatches := true,
        statusUpdateOk := true }).outcome = Outcome.err "pod container size is 0" :=
  ⟨(syncPod_stopped_path_unguarded_index trivialHelpers
      { sampleDevbox with spec.state := DevboxState.Stopped } podNoStatuses _
      rfl rfl rfl).1 rfl,
   (syncPod_stopped_path_unguarded_index trivialHelpers
      sampleDevbox podNoStatuses _ rfl rfl rfl).2 rfl⟩

/-- C5: when the credential secret exists, the two optional fields are
backfilled independently and only when absent — a present value is never
overwritten — and every other field is left unchanged; when the secret is
absent, a secret owned by the devbox is created holding the generated SSH
keypair and the random shared token. -/
theorem syncSecret_backfill_and_frame (inp : SyncSecretIn) :
    (∀ d, inp.existing = some d →
      (∀ k, k ≠ jwtSecretKey → k ≠ authorizedKeysKey →
        (syncSecret inp).data k = d k) ∧
      (d jwtSecretKey = none →
        (syncSecret inp).data jwtSecretKey = some inp.randToken) ∧
      (∀ v, d jwtSecretKey = some v →
        (syncSecret inp).data jwtSecretKey = some v) ∧
      (d authorizedKeysKey = none →
        (syncSecret inp).data authorizedKeysKey = some ((d publicKeyKey).getD "")) ∧
      (∀ v, d authorizedKeysKey = some v →
        (syncSecret inp).data authorizedKeysKey = some v) ∧
      (syncSecret inp).created = false) ∧
    (inp.existing = none →
      (syncSecret inp).created = true ∧
      (syncSecret inp).ownedByDevbox = true ∧
      (syncSecret inp).data jwtSecretKey = some inp.randToken ∧
      (syncSecret inp).data publicKeyKey = some inp.publicKey ∧
      (syncSecret inp).data privateKeyKey = some inp.privateKey ∧
      (syncSecret inp).data authorizedKeysKey = some inp.publicKey) := by
  constructor
  · intro d hd
    refine ⟨?_, ?_, ?_, ?_, ?_, ?_⟩ <;>
      simp only [syncSecret, hd] <;>
      rcases h1 : d jwtSecretKey with _ | v1 <;>
      rcases h2 : d authorizedKeysKey with _ | v2 <;>
      simp_all [dataSet, jwtSecretKey, authorizedKeysKey, publicKeyKey, privateKeyKey]
  · intro hd
    simp [syncSecret, hd, dataSet, jwtSecretKey, authorizedKeysKey, publicKeyKey,
      privateKeyKey]

/-- Witness for C5 at concrete inputs: an existing secret that misses only
the authorized-keys field is backfilled from its public key and keeps its
unrelated field, and an absent secret leads to an owned creation. -/
theorem syncSecret_backfill_and_frame_witness :
    (syncSecret
      { existing := some (dataSet (dataSet (dataSet (fun _ => none)
          jwtSecretKey "oldjwt") publicKeyKey "pub1") "OTHER_FIELD" "keepme"),
        randToken := "tok32", publicKey := "pubX", privateKey := "privX" }).data
      "OTHER_FIELD" = some "keepme" ∧
    (syncSecret
      { existing := some (dataSet (dataSet (dataSet (fun _ => none)
          jwtSecretKey "oldjwt") publicKeyKey "pub1") "OTHER_FIELD" "keepme"),
        randToken := "tok32", publicKey := "pubX", privateKey := "privX" }).data
      jwtSecretKey = some "oldjwt" ∧
    (syncSecret
      { existing := some (dataSet (dataSet (dataSet (fun _ => none)
          jwtSecretKey "oldjwt") publicKeyKey "pub1") "OTHER_FIELD" "keepme"),
        randToken := "tok32", publicKey := "pubX", privateKey := "privX" }).data
      authorizedKeysKey = some "pub1" ∧
    (syncSecret
      { existing := none, randToken := "tok32", publicKey := "pubX",
        privateKey := "privX" }).created = true ∧
    (syncSecret
      { existing := none, randToken := "tok32", publicKey := "pubX",
        privateKey := "privX" }).data privateKeyKey = some "privX" := by
  have h := syncSecret_backfill_and_frame
    { existing := some (dataSet (dataSet (dataSet (fun _ => none)
        jwtSecretKey "oldjwt") publicKeyKey "pub1") "OTHER_FIELD" "keepme"),
      randToken := "tok32", publicKey := "pubX", privateKey := "privX" }
  have h2 := syncSecret_backfill_and_frame
    { existing := none, randToken := "tok32", publicKey := "pubX",
      privateKey := "privX" }
  obtain ⟨hframe, _, hjwt, hauth, _, _⟩ := h.1 _ rfl
  refine ⟨?_, ?_, ?_, (h2.2 rfl).1, (h2.2 rfl).2.2.2.2.1⟩
  · have := hframe "OTHER_FIELD" (by decide) (by decide)
    rw [this]; rfl
  · exact hjwt "oldjwt" rfl
  · have := hauth rfl
    rw [this]; rfl

/-- Helper: when no observed port carries a platform-assigned node port,
the extraction loop yields 0. -/
theorem extractNodePort_eq_zero (ps : List ServicePort)
    (h : ∀ p ∈ ps, p.nodePort = 0) : extractNodePort ps = 0 := by
  induction ps with
  | nil => rfl
  | cons p rest ih =>
    have hp := h p (by simp)
    simp [extractNodePort, hp]
    exact ih (fun q hq => h q (by simp [hq]))

/-- C7: the NodePort sync upserts a NodePort-type service selecting the
given pod labels with one port per runtime-declared port (a single SSH port
22/TCP when the runtime declares none), re-reads the service, fails with an
error when no platform-assigned node port is observed, and otherwise
publishes the NodePort network type and the assigned port to status. -/
theorem syncNodePortNetwork_publishes_assigned_port
    (runtimePorts : List RuntimePort) (inp : NpIn)
    (hports : inp.servicePorts = getServicePort runtimePorts) :
    (runtimePorts ≠ [] → inp.servicePorts = runtimePorts.map toServicePort) ∧
    (runtimePorts = [] → inp.servicePorts = [defaultSSHServicePort]) ∧
    NpAction.upsertService inp.recLabels "NodePort"
      (upsertServicePorts inp.existingPorts inp.servicePorts) ∈
      (syncNodePortNetwork inp).actions ∧
    NpAction.getService ∈ (syncNodePortNetwork inp).actions ∧
    ((∀ p ∈ inp.observedPorts, p.nodePort = 0) →
      (syncNodePortNetwork inp).result =
        StepResult.err ("NodePort not found for service " ++ inp.devbox.name ++ "-svc") ∧
      (syncNodePortNetwork inp).devbox = inp.devbox) ∧
    (extractNodePort inp.observedPorts ≠ 0 →
      (syncNodePortNetwork inp).result = StepResult.ok ∧
      (syncNodePortNetwork inp).devbox.status.network.type = some NetworkType.NodePort ∧
      (syncNodePortNetwork inp).devbox.status.network.nodePort =
        extractNodePort inp.observedPorts ∧
      NpAction.statusWrite (syncNodePortNetwork inp).devbox.status.network ∈
        (syncNodePortNetwork inp).actions) := by
  refine ⟨?_, ?_, ?_, ?_, ?_, ?_⟩
  · intro hne
    rw [hports]
    simp [getServicePort, List.isEmpty_iff, hne]
  · intro heq
    rw [hports]
    simp [getServicePort, heq]
  · simp [syncNodePortNetwork]
    split <;> simp
  · simp [syncNodePortNetwork]
    split <;> simp
  · intro hzero
    have h0 := extractNodePort_eq_zero inp.observedPorts hzero
    simp [syncNodePortNetwork, h0]
  · intro hnz
    simp [syncNodePortNetwork, hnz]

/-- Witness for C7 at concrete inputs. -/
theorem syncNodePortNetwork_publishes_assigned_port_witness :
    (syncNodePortNetwork sampleNpIn).result = StepResult.ok ∧
    (syncNodePortNetwork sampleNpIn).devbox.status.network.type =
      some NetworkType.NodePort ∧
    (syncNodePortNetwork sampleNpIn).devbox.status.network.nodePort =
      extractNodePort [assignedSSHPort] :=
  have h := syncNodePortNetwork_publishes_assigned_port [] sampleNpIn rfl
  have h6 := h.2.2.2.2.2 (by decide)
  ⟨h6.1, h6.2.1, h6.2.2.1⟩

/-- C8: the proxy environment sets the auto-shutdown toggle to true exactly
when both the devbox spec and the controller-wide flag enable it, carries
the interval variable only in that case, and carries a JWT signed with
HS256 under the configured shutdown-server key whose claims hold the devbox
name and namespace and whose expiry is 7 days after issuance. -/
theorem generateProxyPodEnv_auto_shutdown_and_jwt (cfg : Config)
    (devbox : Devbox) (servicePorts : List ServicePort) (now : Nat) :
    envLookup (generateProxyPodEnv cfg devbox servicePorts now) "ENABLE_AUTO_SHUTDOWN" =
      some (EnvValue.str (formatBool
        (devbox.spec.autoShutdown.enable && cfg.enableAutoShutdown))) ∧
    (envLookup (generateProxyPodEnv cfg devbox servicePorts now) "AUTO_SHUTDOWN_INTERVAL" =
        some (EnvValue.str devbox.spec.autoShutdown.time) ↔
      (devbox.spec.autoShutdown.enable && cfg.enableAutoShutdown) = true) ∧
    envLookup (generateProxyPodEnv cfg devbox servicePorts now) "JWT_TOKEN" =
      some (EnvValue.tok (generateProxyPodJWT cfg devbox now)) ∧
    (generateProxyPodJWT cfg devbox now).alg = SigningAlg.HS256 ∧
    (generateProxyPodJWT cfg devbox now).signingKey = cfg.shutdownServerKey ∧
    (generateProxyPodJWT cfg devbox now).claims.expiresAt =
      (generateProxyPodJWT cfg devbox now).claims.issuedAt + 7 * 24 * 3600 ∧
    (generateProxyPodJWT cfg devbox now).claims.devboxName = devbox.name ∧
    (generateProxyPodJWT cfg devbox now).claims.nameSpace = devbox.ns := by
  cases he : devbox.spec.autoShutdown.enable <;>
    cases hc : cfg.enableAutoShutdown <;>
    simp [generateProxyPodEnv, envLookup, generateProxyPodJWT, he, hc, formatBool]

/-- Helper: the pod-service upsert does not touch the proxy deployment or
the proxy ingress. -/
theorem syncPodSvc_frame (c : WsCluster) :
    (syncPodSvc c).1.proxyDeployment = c.proxyDeployment ∧
    (syncPodSvc c).1.proxyIngress = c.proxyIngress := by
  simp [syncPodSvc]
  split <;> simp

/-- Helper: the proxy-service upsert does not touch the proxy deployment or
the proxy ingress. -/
theorem syncProxySvc_frame (c : WsCluster) :
    (syncProxySvc c).1.proxyDeployment = c.proxyDeployment ∧
    (syncProxySvc c).1.proxyIngress = c.proxyIngress := by
  simp [syncProxySvc]
  split <;> simp

/-- Helper: after `syncProxyPod` the proxy deployment exists iff the devbox
is Running, and the proxy ingress is untouched. -/
theorem syncProxyPod_deployment (devbox : Devbox) (c : WsCluster) :
    ((syncProxyPod devbox c).1.proxyDeployment =
      decide (devbox.spec.state = DevboxState.Running)) ∧
    (syncProxyPod devbox c).1.proxyIngress = c.proxyIngress := by
  by_cases h : devbox.spec.state = DevboxState.Running <;>
    simp [syncProxyPod, h] <;> split <;> simp_all

/-- Helper: after `syncProxyIngress` an ingress exists, and the proxy
deployment is untouched. -/
theorem syncProxyIngress_exists (cfg : Config) (c : WsCluster) (randStr : String) :
    (syncProxyIngress cfg c randStr).1.proxyIngress ≠ none ∧
    (syncProxyIngress cfg c randStr).1.proxyDeployment = c.proxyDeployment := by
  rcases h : c.proxyIngress with _ | ing <;> simp [syncProxyIngress, h]

/-- C2 counterexample: after a successful WebSocket pass of a Stopped devbox
over an empty cluster, the proxy deployment indeed does not exist, but a
proxy ingress does exist — it is created by the pass even though the devbox
is not Running, so the claim that neither object exists is false. -/
theorem syncWebSocketNetwork_stopped_ingress_persists_cex :
    (syncWebSocketNetwork sampleConfig stoppedDevbox emptyWsCluster "cccccccccccc").cluster.proxyDeployment = false ∧
    (syncWebSocketNetwork sampleConfig stoppedDevbox emptyWsCluster "cccccccccccc").cluster.proxyIngress ≠ none := by
  decide

/-- C2 amended: after a successful WebSocket pass with state not Running the
proxy deployment does not exist (it is deleted on transition away from
Running and recreated by a later Running pass), while the proxy ingress is
upserted regardless of state and exists after every successful pass. -/
theorem syncWebSocketNetwork_stopped_deployment_absent (cfg : Config)
    (devbox : Devbox) (c : WsCluster) (randStr : String)
    (hstop : devbox.spec.state ≠ DevboxState.Running) :
    (syncWebSocketNetwork cfg devbox c randStr).cluster.proxyDeployment = false ∧
    (syncWebSocketNetwork cfg devbox c randStr).cluster.proxyIngress ≠ none ∧
    (∀ dv2 r2, dv2.spec.state = DevboxState.Running →
      (syncWebSocketNetwork cfg dv2
        (syncWebSocketNetwork cfg devbox c randStr).cluster r2).cluster.proxyDeployment = true) := by
  have key : ∀ dv k r, (syncWebSocketNetwork cfg dv k r).cluster.proxyDeployment =
      decide (dv.spec.state = DevboxState.Running) ∧
      (syncWebSocketNetwork cfg dv k r).cluster.proxyIngress ≠ none := by
    intro dv k r
    show (syncProxyIngress cfg (syncProxySvc (syncProxyPod
        { dv with status.network.type := some NetworkType.WebSocket }
        (syncPodSvc k).1).1).1 r).1.proxyDeployment = _ ∧
      (syncProxyIngress cfg (syncProxySvc (syncProxyPod
        { dv with status.network.type := some NetworkType.WebSocket }
        (syncPodSvc k).1).1).1 r).1.proxyIngress ≠ none
    constructor
    · rw [(syncProxyIngress_exists cfg _ r).2, (syncProxySvc_frame _).1,
        (syncProxyPod_deployment _ _).1]
    · exact (syncProxyIngress_exists cfg _ r).1
  refine ⟨?_, (key devbox c randStr).2, ?_⟩
  · rw [(key devbox c randStr).1]
    simp [hstop]
  · intro dv2 r2 h2
    rw [(key dv2 _ r2).1]
    simp [h2]

/-- Witness for C2 amended at a concrete input: a Stopped devbox over an
empty cluster, then a Running pass recreating the deployment. -/
theorem syncWebSocketNetwork_stopped_deployment_absent_witness :
    (syncWebSocketNetwork sampleConfig stoppedDevbox emptyWsCluster "ddd").cluster.proxyDeployment = false ∧
    (syncWebSocketNetwork sampleConfig stoppedDevbox emptyWsCluster "ddd").cluster.proxyIngress ≠ none ∧
    (syncWebSocketNetwork sampleConfig sampleDevbox
      (syncWebSocketNetwork sampleConfig stoppedDevbox emptyWsCluster "ddd").cluster
      "eee").cluster.proxyDeployment = true :=
  have h := syncWebSocketNetwork_stopped_deployment_absent sampleConfig stoppedDevbox
    emptyWsCluster "ddd" (by decide)
  ⟨h.1, h.2.1, h.2.2 sampleDevbox "eee" rfl⟩

/-- C3 refutation (code bug): two consecutive WebSocket passes with no
external change between them. The first pass creates the ingress with host
`aaaaaaaaaaaa.sealos.example` and publishes it; the second pass leaves the
ingress unchanged but generates a fresh random host, publishes that new
host to status — an additional, different status write on a pass with no
external change — and the published host no longer matches the ingress. -/
theorem syncWebSocketNetwork_second_pass_writes_new_host :
    wsPass1.cluster.proxyIngress = some ⟨"aaaaaaaaaaaa.sealos.example"⟩ ∧
    wsPass2.cluster.proxyIngress = some ⟨"aaaaaaaaaaaa.sealos.example"⟩ ∧
    wsPass1.devbox.status.network.webSocket = "aaaaaaaaaaaa.sealos.example" ∧
    wsPass2.devbox.status.network.webSocket = "bbbbbbbbbbbb.sealos.example" ∧
    WsAction.statusWrite wsPass2.devbox.status ∈ wsPass2.actions ∧
    wsPass2.devbox.status ≠ wsPass1.devbox.status := by
  decide

/-- C4 counterexample: a forward pass in which all three steps succeed emits
success events only after the credential and pod steps; no success event for
the network step exists anywhere in the trace, so the claim that a success
event follows each successful step is false. -/
theorem reconcile_no_network_success_event_cex :
    (reconcile reconcileAllOkIn).result = StepResult.ok ∧
    RAction.networkStep ∈ (reconcile reconcileAllOkIn).actions ∧
    (reconcile reconcileAllOkIn).events =
      [⟨EventType.Normal, "Sync secret success"⟩,
       ⟨EventType.Normal, "Sync pod success"⟩] ∧
    (reconcile reconcileAllOkIn).events.countP
      (fun e => e.etype == EventType.Normal) = 2 := by
  decide

/-- C4 amended: a forward pass ensures the finalizer, mirrors
`networkSpec.type` into status, then runs credential, network and pod sync
in that fixed order; each failed step emits a warning event and aborts the
remaining steps, returning the error; success events are emitted after the
credential and pod steps only (the network step records no success
event). -/
theorem reconcile_forward_fixed_order (inp : ReconcileIn)
    (hfound : inp.devboxFound = true)
    (hfwd : inp.devbox.deletionTimestampIsZero = true)
    (hfin : inp.addFinalizerOk = true) :
    (reconcile inp).devbox.status.network.type = some inp.devbox.spec.networkType ∧
    (∀ m, inp.secretResult = StepResult.err m →
      (reconcile inp).result = StepResult.err m ∧
      (reconcile inp).actions = [.addFinalizerRetry, .mirrorNetworkStatus, .secretStep] ∧
      (reconcile inp).events = [⟨EventType.Warning, "Sync secret failed"⟩]) ∧
    (∀ m, inp.secretResult = StepResult.ok → inp.networkResult = StepResult.err m →
      (reconcile inp).result = StepResult.err m ∧
      (reconcile inp).actions =
        [.addFinalizerRetry, .mirrorNetworkStatus, .secretStep, .networkStep] ∧
      (reconcile inp).events =
        [⟨EventType.Normal, "Sync secret success"⟩,
         ⟨EventType.Warning, "Sync network failed"⟩]) ∧
    (∀ m, inp.secretResult = StepResult.ok → inp.networkResult = StepResult.ok →
      inp.podResult = StepResult.err m →
      (reconcile inp).result = StepResult.err m ∧
      (reconcile inp).actions =
        [.addFinalizerRetry, .mirrorNetworkStatus, .secretStep, .networkStep, .podStep] ∧
      (reconcile inp).events =
        [⟨EventType.Normal, "Sync secret success"⟩,
         ⟨EventType.Warning, "Sync pod failed"⟩]) ∧
    (inp.secretResult = StepResult.ok → inp.networkResult = StepResult.ok →
      inp.podResult = StepResult.ok →
      (reconcile inp).result = StepResult.ok ∧
      (reconcile inp).actions =
        [.addFinalizerRetry, .mirrorNetworkStatus, .secretStep, .networkStep, .podStep] ∧
      (reconcile inp).events =
        [⟨EventType.Normal, "Sync secret success"⟩,
         ⟨EventType.Normal, "Sync pod success"⟩]) := by
  refine ⟨?_, ?_, ?_, ?_, ?_⟩
  · rcases hs : inp.secretResult with _ | m1 <;>
      rcases hn : inp.networkResult with _ | m2 <;>
      rcases hp : inp.podResult with _ | m3 <;>
      simp [reconcile, hfound, hfwd, hfin, hs, hn, hp]
  · intro m hs
    simp [reconcile, hfound, hfwd, hfin, hs]
  · intro m hs hn
    simp [reconcile, hfound, hfwd, hfin, hs, hn]
  · intro m hs hn hp
    simp [reconcile, hfound, hfwd, hfin, hs, hn, hp]
  · intro hs hn hp
    simp [reconcile, hfound, hfwd, hfin, hs, hn, hp]

/-- Witness for C4 amended at the all-success concrete input. -/
theorem reconcile_forward_fixed_order_witness :
    (reconcile reconcileAllOkIn).devbox.status.network.type =
      some reconcileAllOkIn.devbox.spec.networkType ∧
    (reconcile reconcileAllOkIn).result = StepResult.ok ∧
    (reconcile reconcileAllOkIn).actions =
      [.addFinalizerRetry, .mirrorNetworkStatus, .secretStep, .networkStep, .podStep] ∧
    (reconcile reconcileAllOkIn).events =
      [⟨EventType.Normal, "Sync secret success"⟩,
       ⟨EventType.Normal, "Sync pod success"⟩] :=
  have h := reconcile_forward_fixed_order reconcileAllOkIn rfl rfl rfl
  ⟨h.1, (h.2.2.2.2 rfl rfl rfl).1, (h.2.2.2.2 rfl rfl rfl).2.1,
   (h.2.2.2.2 rfl rfl rfl).2.2⟩

/-- C9: the cleanup strips the blocking finalizer from every labelled pod
that carries it before any bulk delete; on success the bulk deletes run in
the order pods, services, secrets; a not-found answer to a bulk delete is
absorbed (deleting absent objects is not an error, so a re-run after a
crashed partial attempt converges); and the devbox's own finalizer is
removed exactly when the cleanup returned without error. -/
theorem removeAll_cleanup_then_finalizer (inp : ReconcileIn)
    (hfound : inp.devboxFound = true)
    (hdel : inp.devbox.deletionTimestampIsZero = false) :
    deleteResourcesByLabels DelResult.notFound = StepResult.ok ∧
    ((removeAll inp.cleanup).result = StepResult.ok →
      (removeAll inp.cleanup).actions =
        [CleanupAction.listPods] ++ stripFinalizerActions inp.cleanup.pods ++
        [CleanupAction.deleteAllPods, CleanupAction.deleteAllServices,
         CleanupAction.deleteAllSecrets]) ∧
    (inp.cleanup.pods = [] → inp.cleanup.delPods = DelResult.notFound →
      inp.cleanup.delServices = DelResult.notFound →
      inp.cleanup.delSecrets = DelResult.notFound →
      (removeAll inp.cleanup).result = StepResult.ok) ∧
    (∀ m, (removeAll inp.cleanup).result = StepResult.err m →
      (reconcile inp).result = StepResult.err m ∧
      RAction.removeDevboxFinalizer ∉ (reconcile inp).actions) ∧
    ((removeAll inp.cleanup).result = StepResult.ok →
      finalizerName ∈ inp.devbox.finalizers →
      (reconcile inp).result = StepResult.ok ∧
      (reconcile inp).actions =
        [RAction.cleanupStep, RAction.removeDevboxFinalizer, RAction.updateDevbox]) := by
  refine ⟨rfl, ?_, ?_, ?_, ?_⟩
  · intro hok
    unfold removeAll at hok ⊢
    rcases hstr : stripFinalizerActions inp.cleanup.pods with _ | ⟨s, rest⟩ <;>
      simp [hstr] at hok ⊢ <;>
      [skip; (rcases hup : inp.cleanup.podUpdateOk with _ | _ <;> simp [hup] at hok ⊢)] <;>
      unfold removeAllDeletes at hok ⊢ <;>
      rcases h1 : deleteResourcesByLabels inp.cleanup.delPods with _ | m1 <;>
      rcases h2 : deleteResourcesByLabels inp.cleanup.delServices with _ | m2 <;>
      simp_all
  · intro hp h1 h2 h3
    simp [removeAll, stripFinalizerActions, hp, removeAllDeletes, h1, h2, h3,
      deleteResourcesByLabels]
  · intro m herr
    simp [reconcile, hfound, hdel, herr]
  · intro hok hfin
    simp [reconcile, hfound, hdel, hok, hfin]

/-- Witness for C9 at a concrete deletion pass: one labelled pod carrying
the finalizer, bulk deletes answering ok/not-found/ok, cleanup succeeding
and the devbox finalizer removed afterwards. -/
theorem removeAll_cleanup_then_finalizer_witness :
    (removeAll deletionPassIn.cleanup).result = StepResult.ok ∧
    (removeAll deletionPassIn.cleanup).actions =
      [CleanupAction.listPods] ++ stripFinalizerActions deletionPassIn.cleanup.pods ++
      [CleanupAction.deleteAllPods, CleanupAction.deleteAllServices,
       CleanupAction.deleteAllSecrets] ∧
    (reconcile deletionPassIn).result = StepResult.ok ∧
    (reconcile deletionPassIn).actions =
      [RAction.cleanupStep, RAction.removeDevboxFinalizer, RAction.updateDevbox] :=
  have h := removeAll_cleanup_then_finalizer deletionPassIn rfl rfl
  have hok : (removeAll deletionPassIn.cleanup).result = StepResult.ok := by decide
  have hfin : finalizerName ∈ deletionPassIn.devbox.finalizers := by decide
  ⟨hok, h.2.1 hok, (h.2.2.2.2 hok hfin).1, (h.2.2.2.2 hok hfin).2⟩

end DevboxCtrl
